import Mathlib

set_option maxRecDepth 100000

/-!
Verification development for the IVASMS → Telegram forwarder (`src/bot.py`).

The Python program is shallowly embedded: pure fragments of the source become
Lean functions; network access and HTML parsing are abstracted by passing the
already-parsed data (group ids, phone numbers, card texts, form/token contents)
as explicit inputs.  Machine integers are modelled as `Nat` with explicit
`% 2 ^ 32` where 32-bit overflow matters.  Python `set`s are modelled as
`Finset String` or, where only membership and counting matter, as `List String`.
-/

/-! ## SHA-1 (as used by Python `hashlib.sha1(...).hexdigest()`)

The message `id` in `fetch_sms_from_api` is
`sha1(f"{phone_number}|{sms_text}".encode()).hexdigest()`.  We model SHA-1
(FIPS 180, RFC 3174) over byte lists, bytes being `Nat < 256`, words `Nat`
reduced mod `2 ^ 32`. -/

/-- UTF-8 encoding of a single Unicode code point, as Python `str.encode()`
produces it (code points are valid scalar values, so no surrogates). -/
def utf8_bytes_of_char (n : Nat) : List Nat :=
  if n < 0x80 then [n]
  else if n < 0x800 then [0xC0 + n / 0x40, 0x80 + n % 0x40]
  else if n < 0x10000 then
    [0xE0 + n / 0x1000, 0x80 + (n / 0x40) % 0x40, 0x80 + n % 0x40]
  else
    [0xF0 + n / 0x40000, 0x80 + (n / 0x1000) % 0x40, 0x80 + (n / 0x40) % 0x40,
     0x80 + n % 0x40]

/-- The UTF-8 bytes of a string (Python `s.encode()`). -/
def strBytes (s : String) : List Nat :=
  s.data.flatMap (fun c => utf8_bytes_of_char c.toNat)

/-- Rotate a 32-bit word left by `k` bits. -/
def rotl32 (k n : Nat) : Nat :=
  ((n <<< k) ||| (n >>> (32 - k))) % 4294967296

/-- SHA-1 round function `f_t`. -/
def sha1_f (t b c d : Nat) : Nat :=
  if t < 20 then (b &&& c) ||| ((b ^^^ 0xFFFFFFFF) &&& d)
  else if t < 40 then b ^^^ c ^^^ d
  else if t < 60 then (b &&& c) ||| (b &&& d) ||| (c &&& d)
  else b ^^^ c ^^^ d

/-- SHA-1 round constant `K_t`. -/
def sha1_k (t : Nat) : Nat :=
  if t < 20 then 0x5A827999
  else if t < 40 then 0x6ED9EBA1
  else if t < 60 then 0x8F1BBCDC
  else 0xCA62C1D6

/-- A 32-bit big-endian word from four bytes. -/
def word_of_bytes (b0 b1 b2 b3 : Nat) : Nat :=
  ((b0 * 256 + b1) * 256 + b2) * 256 + b3

/-- Group a 64-byte block into sixteen 32-bit words. -/
def words16 : List Nat → List Nat
  | b0 :: b1 :: b2 :: b3 :: rest => word_of_bytes b0 b1 b2 b3 :: words16 rest
  | _ => []

/-- Extend sixteen words to the eighty-word SHA-1 message schedule. -/
def sha1_schedule (ws : List Nat) : Array Nat :=
  (List.range 64).foldl
    (fun a _ =>
      let i := a.size
      a.push (rotl32 1 ((a.getD (i - 3) 0) ^^^ (a.getD (i - 8) 0) ^^^
        (a.getD (i - 14) 0) ^^^ (a.getD (i - 16) 0))))
    ws.toArray

/-- Working state of one SHA-1 compression. -/
structure Sha1State where
  a : Nat
  b : Nat
  c : Nat
  d : Nat
  e : Nat

/-- One SHA-1 compression over a 64-byte block. -/
def sha1_compress (h : Nat × Nat × Nat × Nat × Nat) (block : List Nat) :
    Nat × Nat × Nat × Nat × Nat :=
  let ws := sha1_schedule (words16 block)
  let init : Sha1State := ⟨h.1, h.2.1, h.2.2.1, h.2.2.2.1, h.2.2.2.2⟩
  let fin := ws.toList.enum.foldl
    (fun st p =>
      let temp := (rotl32 5 st.a + sha1_f p.1 st.b st.c st.d + st.e +
        sha1_k p.1 + p.2) % 4294967296
      ⟨temp, st.a, rotl32 30 st.b, st.c, st.d⟩)
    init
  ((h.1 + fin.a) % 4294967296, (h.2.1 + fin.b) % 4294967296,
   (h.2.2.1 + fin.c) % 4294967296, (h.2.2.2.1 + fin.d) % 4294967296,
   (h.2.2.2.2 + fin.e) % 4294967296)

/-- SHA-1 padding: `0x80`, zeros to 56 mod 64, then the 64-bit big-endian
bit length. -/
def sha1_pad (msg : List Nat) : List Nat :=
  let len := msg.length
  let zeros := (120 - (len + 1) % 64) % 64
  msg ++ [0x80] ++ List.replicate zeros 0 ++
    ([56, 48, 40, 32, 24, 16, 8, 0].map (fun s => ((len * 8) >>> s) % 256))

/-- Split a byte list into 64-byte blocks (`fuel` bounds the recursion). -/
def toBlocksAux : Nat → List Nat → List (List Nat)
  | 0, _ => []
  | _ + 1, [] => []
  | fuel + 1, l => l.take 64 :: toBlocksAux fuel (l.drop 64)

/-- One lowercase hexadecimal digit. -/
def hexDigit (n : Nat) : Char :=
  if n < 10 then Char.ofNat (48 + n) else Char.ofNat (87 + n)

/-- Eight lowercase hex digits of a 32-bit word, most significant first. -/
def hex8 (w : Nat) : List Char :=
  (List.range 8).map (fun i => hexDigit ((w >>> ((7 - i) * 4)) % 16))

/-- SHA-1 hex digest of a byte list (Python `sha1(b).hexdigest()`). -/
def sha1_hex_of_bytes (msg : List Nat) : String :=
  let padded := sha1_pad msg
  let h := (toBlocksAux padded.length padded).foldl sha1_compress
    (0x67452301, 0xEFCDAB89, 0x98BADCFE, 0x10325476, 0xC3D2E1F0)
  String.mk (hex8 h.1 ++ hex8 h.2.1 ++ hex8 h.2.2.1 ++ hex8 h.2.2.2.1 ++
    hex8 h.2.2.2.2)

/-- The record identity of `fetch_sms_from_api`:
`sha1(f"{phone_number}|{sms_text}".encode()).hexdigest()`. -/
def unique_id (phone_number sms_text : String) : String :=
  sha1_hex_of_bytes (strBytes (phone_number ++ "|" ++ sms_text))

/-! ## String helpers -/

/-- Python's `needle in hay` substring test. -/
def str_contains (hay needle : String) : Bool :=
  hay.toList.tails.any (fun t => needle.toList.isPrefixOf t)

/-- Python `str.lower()` (character-wise; the keywords involved are
ASCII).  Defined over the character list so that it reduces in the
kernel. -/
def py_lower (s : String) : String :=
  String.mk (s.data.map Char.toLower)

/-- Python `str.strip()`: leading and trailing whitespace removed.
Defined over the character list so that it reduces in the kernel. -/
def py_strip (s : String) : String :=
  String.mk
    (((s.data.dropWhile Char.isWhitespace).reverse.dropWhile
        Char.isWhitespace).reverse)

/-- An apostrophe character, used in a few table keys. -/
def apos : String := String.mk [Char.ofNat 39]

/-! ## Keyword / emoji / flag tables

Faithful transcriptions of the module-level dicts of `src/bot.py`, as
association lists in Python dict iteration order (insertion order; a
duplicated key keeps its first position and, here, its value — the duplicated
`LinkedIn` and `Airbnb` entries of `SERVICE_KEYWORDS` rebind identical
values, so they are simply dropped). -/

/-- The `SERVICE_KEYWORDS` dict: service name → lowercase keywords. -/
def SERVICE_KEYWORDS : List (String × List String) :=
  [("Facebook", ["facebook"]), ("Google", ["google", "gmail"]),
   ("WhatsApp", ["whatsapp"]), ("Telegram", ["telegram"]),
   ("Instagram", ["instagram"]), ("Amazon", ["amazon"]),
   ("Netflix", ["netflix"]), ("LinkedIn", ["linkedin"]),
   ("Microsoft", ["microsoft", "outlook", "live.com"]),
   ("Apple", ["apple", "icloud"]), ("Twitter", ["twitter"]),
   ("Snapchat", ["snapchat"]), ("TikTok", ["tiktok"]),
   ("Discord", ["discord"]), ("Signal", ["signal"]), ("Viber", ["viber"]),
   ("IMO", ["imo"]), ("PayPal", ["paypal"]), ("Binance", ["binance"]),
   ("Uber", ["uber"]), ("Bolt", ["bolt"]), ("Airbnb", ["airbnb"]),
   ("Yahoo", ["yahoo"]), ("Steam", ["steam"]), ("Blizzard", ["blizzard"]),
   ("Foodpanda", ["foodpanda"]), ("Pathao", ["pathao"]),
   ("Messenger", ["messenger", "meta"]), ("Gmail", ["gmail", "google"]),
   ("YouTube", ["youtube", "google"]), ("X", ["x", "twitter"]),
   ("eBay", ["ebay"]), ("AliExpress", ["aliexpress"]),
   ("Alibaba", ["alibaba"]), ("Flipkart", ["flipkart"]),
   ("Outlook", ["outlook", "microsoft"]), ("Skype", ["skype", "microsoft"]),
   ("Spotify", ["spotify"]), ("iCloud", ["icloud", "apple"]),
   ("Stripe", ["stripe"]), ("Cash App", ["cash app", "square cash"]),
   ("Venmo", ["venmo"]), ("Zelle", ["zelle"]),
   ("Wise", ["wise", "transferwise"]), ("Coinbase", ["coinbase"]),
   ("KuCoin", ["kucoin"]), ("Bybit", ["bybit"]), ("OKX", ["okx"]),
   ("Huobi", ["huobi"]), ("Kraken", ["kraken"]), ("MetaMask", ["metamask"]),
   ("Epic Games", ["epic games", "epicgames"]),
   ("PlayStation", ["playstation", "psn"]), ("Xbox", ["xbox", "microsoft"]),
   ("Twitch", ["twitch"]), ("Reddit", ["reddit"]),
   ("ProtonMail", ["protonmail", "proton"]), ("Zoho", ["zoho"]),
   ("Quora", ["quora"]), ("StackOverflow", ["stackoverflow"]),
   ("Indeed", ["indeed"]), ("Upwork", ["upwork"]), ("Fiverr", ["fiverr"]),
   ("Glassdoor", ["glassdoor"]), ("Booking.com", ["booking.com", "booking"]),
   ("Careem", ["careem"]), ("Swiggy", ["swiggy"]), ("Zomato", ["zomato"]),
   ("McDonald" ++ apos ++ "s", ["mcdonalds", "mcdonald" ++ apos ++ "s"]),
   ("KFC", ["kfc"]), ("Nike", ["nike"]), ("Adidas", ["adidas"]),
   ("Shein", ["shein"]), ("OnlyFans", ["onlyfans"]), ("Tinder", ["tinder"]),
   ("Bumble", ["bumble"]), ("Grindr", ["grindr"]), ("Line", ["line"]),
   ("WeChat", ["wechat"]), ("VK", ["vk", "vkontakte"]),
   ("Unknown", ["unknown"])]

/-- The `SERVICE_EMOJIS` dict: service name → emoji. -/
def SERVICE_EMOJIS : List (String × String) :=
  [("Telegram", "📩"), ("WhatsApp", "🟢"), ("Facebook", "📘"),
   ("Instagram", "📸"), ("Messenger", "💬"), ("Google", "🔍"),
   ("Gmail", "✉️"), ("YouTube", "▶️"), ("Twitter", "🐦"), ("X", "❌"),
   ("TikTok", "🎵"), ("Snapchat", "👻"), ("Amazon", "🛒"), ("eBay", "📦"),
   ("AliExpress", "📦"), ("Alibaba", "🏭"), ("Flipkart", "📦"),
   ("Microsoft", "🪟"), ("Outlook", "📧"), ("Skype", "📞"),
   ("Netflix", "🎬"), ("Spotify", "🎶"), ("Apple", "🍏"), ("iCloud", "☁️"),
   ("PayPal", "💰"), ("Stripe", "💳"), ("Cash App", "💵"), ("Venmo", "💸"),
   ("Zelle", "🏦"), ("Wise", "🌐"), ("Binance", "🪙"), ("Coinbase", "🪙"),
   ("KuCoin", "🪙"), ("Bybit", "📈"), ("OKX", "🟠"), ("Huobi", "🔥"),
   ("Kraken", "🐙"), ("MetaMask", "🦊"), ("Discord", "🗨️"),
   ("Steam", "🎮"), ("Epic Games", "🕹️"), ("PlayStation", "🎮"),
   ("Xbox", "🎮"), ("Twitch", "📺"), ("Reddit", "👽"), ("Yahoo", "🟣"),
   ("ProtonMail", "🔐"), ("Zoho", "📬"), ("Quora", "❓"),
   ("StackOverflow", "🧑‍💻"), ("LinkedIn", "💼"), ("Indeed", "📋"),
   ("Upwork", "🧑‍💻"), ("Fiverr", "💻"), ("Glassdoor", "🔎"),
   ("Airbnb", "🏠"), ("Booking.com", "🛏️"), ("Uber", "🚗"), ("Lyft", "🚕"),
   ("Bolt", "🚖"), ("Careem", "🚗"), ("Swiggy", "🍔"), ("Zomato", "🍽️"),
   ("Foodpanda", "🍱"), ("McDonald" ++ apos ++ "s", "🍟"), ("KFC", "🍗"),
   ("Nike", "👟"), ("Adidas", "👟"), ("Shein", "👗"), ("OnlyFans", "🔞"),
   ("Tinder", "🔥"), ("Bumble", "🐝"), ("Grindr", "😈"), ("Signal", "🔐"),
   ("Viber", "📞"), ("Line", "💬"), ("WeChat", "💬"), ("VK", "🌐"),
   ("Unknown", "❓")]

/-- The `COUNTRY_FLAGS` dict: country name → flag emoji. -/
def COUNTRY_FLAGS : List (String × String) :=
  [("Afghanistan", "🇦🇫"), ("Albania", "🇦🇱"), ("Algeria", "🇩🇿"),
   ("Andorra", "🇦🇩"), ("Angola", "🇦🇴"), ("Argentina", "🇦🇷"),
   ("Armenia", "🇦🇲"), ("Australia", "🇦🇺"), ("Austria", "🇦🇹"),
   ("Azerbaijan", "🇦🇿"), ("Bahrain", "🇧🇭"), ("Bangladesh", "🇧🇩"),
   ("Belarus", "🇧🇾"), ("Belgium", "🇧🇪"), ("Benin", "🇧🇯"),
   ("Bhutan", "🇧🇹"), ("Bolivia", "🇧🇴"), ("Brazil", "🇧🇷"),
   ("Bulgaria", "🇧🇬"), ("Burkina Faso", "🇧🇫"), ("Cambodia", "🇰🇭"),
   ("Cameroon", "🇨🇲"), ("Canada", "🇨🇦"), ("Chad", "🇹🇩"),
   ("Chile", "🇨 "), ("China", "🇨🇳"), ("Colombia", "🇨🇴"),
   ("Congo", "🇨🇬"), ("Croatia", "🇭🇷"), ("Cuba", "🇨🇺"),
   ("Cyprus", "🇨🇾"), ("Czech Republic", "🇨🇿"), ("Denmark", "🇩🇰"),
   ("Egypt", "🇪🇬"), ("Estonia", "🇪🇪"), ("Ethiopia", "🇪🇹"),
   ("Finland", "🇫🇮"), ("France", "🇫🇷"), ("Gabon", "🇬🇦"),
   ("Gambia", "🇬🇲"), ("Georgia", "🇬🇪"), ("Germany", "🇩🇪"),
   ("Ghana", "🇬🇭"), ("Greece", "🇬🇷"), ("Guatemala", "🇬🇹"),
   ("Guinea", "🇬🇳"), ("Haiti", "🇭🇹"), ("Honduras", "🇭🇳"),
   ("Hong Kong", "🇭🇰"), ("Hungary", "🇭🇺"), ("Iceland", "🇮🇸"),
   ("India", "🇮🇳"), ("Indonesia", "🇮🇩"), ("Iran", "🇮🇷"),
   ("Iraq", "🇮🇶"), ("Ireland", "🇮🇪"), ("Israel", "🇮🇱"),
   ("Italy", "🇮🇹"), ("IVORY COAST", "🇨🇮"), ("Ivory Coast", "🇨🇮"),
   ("Jamaica", "🇯🇲"), ("Japan", "🇯🇵"), ("Jordan", "🇯🇴"),
   ("Kazakhstan", "🇰🇿"), ("Kenya", "🇰🇪"), ("Kuwait", "🇰🇼"),
   ("Kyrgyzstan", "🇰🇬"), ("Laos", "🇱🇦"), ("Latvia", "🇱🇻"),
   ("Lebanon", "🇱🇧"), ("Liberia", "🇱🇷"), ("Libya", "🇱🇾"),
   ("Lithuania", "🇱🇹"), ("Luxembourg", "🇱🇺"), ("Madagascar", "🇲🇬"),
   ("Malaysia", "🇲🇾"), ("Mali", "🇲🇱"), ("Malta", "🇲🇹"),
   ("Mexico", "🇲🇽"), ("Moldova", "🇲🇩"), ("Monaco", "🇲🇨"),
   ("Mongolia", "🇲🇳"), ("Montenegro", "🇲🇪"), ("Morocco", "🇲🇦"),
   ("Mozambique", "🇲🇿"), ("Myanmar", "🇲🇲"), ("Namibia", "🇳🇦"),
   ("Nepal", "🇳🇵"), ("Netherlands", "🇳🇱"), ("New Zealand", "🇳🇿"),
   ("Nicaragua", "🇳🇮"), ("Niger", "🇳🇪"), ("Nigeria", "🇳🇬"),
   ("North Korea", "🇰🇵"), ("North Macedonia", "🇲🇰"), ("Norway", "🇳🇴"),
   ("Oman", "🇴🇲"), ("Pakistan", "🇵🇰"), ("Panama", "🇵🇦"),
   ("Paraguay", "🇵🇾"), ("Peru", "🇵🇪"), ("Philippines", "🇵🇭"),
   ("Poland", "🇵🇱"), ("Portugal", "🇵🇹"), ("Qatar", "🇶🇦"),
   ("Romania", "🇷🇴"), ("Russia", "🇷🇺"), ("Rwanda", "🇷🇼"),
   ("Saudi Arabia", "🇸🇦"), ("Senegal", "🇸🇳"), ("Serbia", "🇷🇸"),
   ("Sierra Leone", "🇸🇱"), ("Singapore", "🇸🇬"), ("Slovakia", "🇸🇰"),
   ("Slovenia", "🇸🇮"), ("Somalia", "🇸🇴"), ("South Africa", "🇿🇦"),
   ("South Korea", "🇰🇷"), ("Spain", "🇪🇸"), ("Sri Lanka", "🇱🇰"),
   ("Sudan", "🇸🇩"), ("Sweden", "🇸🇪"), ("Switzerland", "🇨🇭"),
   ("Syria", "🇸🇾"), ("Taiwan", "🇹🇼"), ("Tajikistan", "🇹🇯"),
   ("Tanzania", "🇹🇿"), ("Thailand", "🇹🇭"), ("TOGO", "🇹🇬"),
   ("Tunisia", "🇹🇳"), ("Turkey", "🇹🇷"), ("Turkmenistan", "🇹🇲"),
   ("Uganda", "🇺🇬"), ("Ukraine", "🇺🇦"),
   ("United Arab Emirates", "🇦🇪"), ("United Kingdom", "🇬🇧"),
   ("United States", "🇺🇸"), ("Uruguay", "🇺🇾"), ("Uzbekistan", "🇺🇿"),
   ("Venezuela", "🇻🇪"), ("Vietnam", "🇻🇳"), ("Yemen", "🇾🇪"),
   ("Zambia", "🇿🇲"), ("Zimbabwe", "🇿🇼"), ("Unknown Country", "🏴‍☠️")]

/-! ## OTP code extraction

Models `re.search(r'(\d{3}-\d{3})', t) or re.search(r'\b(\d{4,8})\b', t)`
followed by `.group(1)` / `"N/A"`.  Python's leftmost-match `re.search`
becomes a scan over start positions; `\d`, `\w` and `\b` are modelled over
their ASCII meaning (the patterns involved only ever match ASCII digits,
and word-boundary neighbours in the scraped texts are ASCII). -/

/-- A regex word character (`\w`, ASCII fragment). -/
def isWordChar (c : Char) : Bool := c.isAlphanum || c == '_'

/-- Match `\d{3}-\d{3}` exactly at the head of the character list. -/
def strictAt : List Char → Option String
  | d1 :: d2 :: d3 :: h :: d4 :: d5 :: d6 :: _ =>
      if d1.isDigit && d2.isDigit && d3.isDigit && h == '-' &&
         d4.isDigit && d5.isDigit && d6.isDigit then
        some (String.mk [d1, d2, d3, h, d4, d5, d6])
      else none
  | _ => none

/-- Leftmost match of `(\d{3}-\d{3})` (Python `re.search`, group 1). -/
def strict_search_aux : List Char → Option String
  | [] => none
  | l@(_ :: rest) =>
      match strictAt l with
      | some m => some m
      | none => strict_search_aux rest

/-- Leftmost match of `(\d{3}-\d{3})` in a string. -/
def strict_search (t : String) : Option String :=
  strict_search_aux t.toList

/-- Match `\b(\d{4,8})\b` at the head of the list, `prev_word` telling
whether the preceding character is a word character (greedy in the length,
as the backtracking regex engine is). -/
def looseAt (prev_word : Bool) (l : List Char) : Option String :=
  if prev_word then none
  else
    [8, 7, 6, 5, 4].findSome? (fun k =>
      let pre := l.take k
      if pre.length == k && pre.all Char.isDigit &&
         (match l.drop k with
          | [] => true
          | c :: _ => !isWordChar c) then
        some (String.mk pre)
      else none)

/-- Scan for the leftmost match of `\b(\d{4,8})\b`, threading the previous
character for the word-boundary test. -/
def loose_search_aux (prev : Option Char) : List Char → Option String
  | [] => none
  | l@(c :: rest) =>
      match looseAt (match prev with | none => false | some p => isWordChar p) l with
      | some m => some m
      | none => loose_search_aux (some c) rest

/-- Leftmost match of `\b(\d{4,8})\b` in a string. -/
def loose_search (t : String) : Option String :=
  loose_search_aux none t.toList

/-- The `code_match` expression of `fetch_sms_from_api`: the strict pattern
or, when it is absent, the loose one (Python `x or y` on match objects). -/
def code_match (t : String) : Option String :=
  match strict_search t with
  | some m => some m
  | none => loose_search t

/-- The extracted `code`: `code_match.group(1) if code_match else "N/A"`. -/
def extract_code (t : String) : String :=
  (code_match t).getD "N/A"

/-! ## Classification -/

/-- The service-classification loop of `fetch_sms_from_api`: first entry of
`SERVICE_KEYWORDS` one of whose keywords occurs in the lowercased text,
else `"Unknown"`. -/
def classify_service (sms_text : String) : String :=
  let lower := py_lower sms_text
  match SERVICE_KEYWORDS.find? (fun p => p.2.any (fun k => str_contains lower k)) with
  | some p => p.1
  | none => "Unknown"

/-- The country name derived from a group id:
`re.match(r'([a-zA-Z\s]+)', group_id)` — the longest prefix of ASCII letters
and whitespace, stripped; the whole stripped group id when that prefix is
empty (no match). -/
def country_name_of (group_id : String) : String :=
  let pre := group_id.toList.takeWhile (fun c => c.isAlpha || c.isWhitespace)
  if pre.isEmpty then py_strip group_id else py_strip (String.mk pre)

/-! ## Message records and extraction (`fetch_sms_from_api`)

The three-level network fan-out (summary → numbers per group → cards per
number) is abstracted: the inputs are the already-parsed group ids, the phone
numbers of each group, and the text content of each card's `p.mb-0` element
(`none` when the card has no such element, in which case the card is
skipped). -/

/-- One message record, as assembled in `fetch_sms_from_api`. -/
structure SmsMessage where
  id : String
  time : String
  number : String
  country : String
  flag : String
  service : String
  code : String
  full_sms : String
deriving DecidableEq, Repr

/-- One phone number of a group together with its SMS cards (each card's
`p.mb-0` inner text, `none` when absent). -/
structure NumberEntry where
  number : String
  cards : List (Option String)
deriving DecidableEq, Repr

/-- One summary group: its id (parsed out of the `getDetials('...')`
handler) and its phone numbers. -/
structure SmsGroup where
  group_id : String
  numbers : List NumberEntry
deriving DecidableEq, Repr

/-- The per-card record construction of `fetch_sms_from_api` (lines
388-413): country from the group id, service from the keyword table, code
from the two patterns, id from the SHA-1 digest of `number|text`. -/
def build_message (group_id phone_number sms_text date_str : String) : SmsMessage :=
  let country_name := country_name_of group_id
  let service := classify_service sms_text
  let code := extract_code sms_text
  let uid := unique_id phone_number sms_text
  let flag := (COUNTRY_FLAGS.lookup country_name).getD "🏴‍☠️"
  ⟨uid, date_str, phone_number, country_name, flag, service, code, sms_text⟩

/-- The extraction loop of `fetch_sms_from_api`: for every group, for every
number, for every card with a `p.mb-0` element, one record from the stripped
card text.  `now` is the capture timestamp string. -/
def fetch_sms_from_api (groups : List SmsGroup) (now : String) : List SmsMessage :=
  groups.flatMap (fun g =>
    g.numbers.flatMap (fun nb =>
      nb.cards.filterMap (fun card =>
        card.map (fun raw =>
          build_message g.group_id nb.number (py_strip raw) now))))

/-! ## Formatter (`escape_markdown`, `send_telegram_message`) -/

/-- The characters escaped by `escape_markdown`
(`r'\_*[]()~`>#+-=|{}.!'`). -/
def escape_chars : List Char := "\\_*[]()~`>#+-=|\x7b\x7d.!".toList

/-- Escape one character for Telegram MarkdownV2. -/
def esc_char (c : Char) : List Char :=
  if escape_chars.contains c then ['\\', c] else [c]

/-- The `escape_markdown` helper: a backslash before every markup-special
character (`re.sub(f'([{re.escape(escape_chars)}])', r'\\\1', str(text))`). -/
def escape_markdown (t : String) : String :=
  String.mk (t.toList.flatMap esc_char)

/-- Interpretation of backslash escapes by a MarkdownV2 consumer: a
backslash makes the following character literal.  Used to state that escaped
text renders literally. -/
def md_unescape_chars : List Char → List Char
  | [] => []
  | [c] => [c]
  | c :: c2 :: rest =>
      if c = '\\' then c2 :: md_unescape_chars rest
      else c :: md_unescape_chars (c2 :: rest)

/-- String version of `md_unescape_chars`. -/
def md_unescape (s : String) : String :=
  String.mk (md_unescape_chars s.toList)

/-- Everything of the `full_message` f-string of `send_telegram_message`
before the preformatted block. -/
def format_header (m : SmsMessage) : String :=
  let service_emoji := (SERVICE_EMOJIS.lookup m.service).getD "❓"
  "🔔 *You have successfully received OTP*\n\n" ++
  "📞 *Number:* `" ++ escape_markdown m.number ++ "`\n" ++
  "🔑 *Code:* `" ++ escape_markdown m.code ++ "`\n" ++
  "🏆 *Service:* " ++ service_emoji ++ " " ++ escape_markdown m.service ++ "\n" ++
  "🌎 *Country:* " ++ escape_markdown m.country ++ " " ++ m.flag ++ "\n" ++
  "⏳ *Time:* `" ++ escape_markdown m.time ++ "`\n\n" ++
  "💬 *Message:*\n"

/-- The full outbound payload of `send_telegram_message`: the header fields
are passed through `escape_markdown`; the raw text is substituted verbatim
inside a fenced block. -/
def format_full_message (m : SmsMessage) : String :=
  format_header m ++ ("```\n" ++ (m.full_sms ++ "\n```"))

/-- Modelled from the spec: the formatter that claim C8 describes, escaping
ALL user-controlled substrings — including the raw message text — before
substitution ("all user-controlled substrings (number, code, labels, raw
text) must be escaped for the target transport's markup dialect before
substitution").  Stated only to be compared against `format_full_message`. -/
def spec_format_all_escaped (m : SmsMessage) : String :=
  format_header m ++ ("```\n" ++ (escape_markdown m.full_sms ++ "\n```"))

/-! ## Identity Store (`load_processed_ids`) -/

/-- The persistence environment of `load_processed_ids`:
whether `mongo_collection` is set, the outcome of the Mongo `find`, and the
state file (absent, unreadable, or readable with its id list). -/
structure StoreEnv where
  mongo_available : Bool
  mongo_find : Except Unit (List String)
  state_file : Option (Except Unit (List String))

/-- The `load_processed_ids` function: Mongo when available (empty set on a
read error), else the JSON state file (empty set when absent or
unreadable). -/
def load_processed_ids (env : StoreEnv) : Finset String :=
  if env.mongo_available then
    match env.mongo_find with
    | .ok ids => ids.toFinset
    | .error _ => ∅
  else
    match env.state_file with
    | none => ∅
    | some (.error _) => ∅
    | some (.ok ids) => ids.toFinset

/-! ## Poll cycle (`check_sms_job`) -/

/-- One attempted delivery: destination, record, and whether the transport
call succeeded.  `send_telegram_message` wraps the transport call in
`try/except`, so the outcome is recorded but never escapes as an
exception. -/
structure Attempt where
  chat : String
  msg : SmsMessage
  delivered : Bool
deriving DecidableEq, Repr

/-- The dispatch loop of `check_sms_job` (lines 486-492):
`for msg in reversed(messages): if msg["id"] not in processed_ids: ...`.
`processed` is the id set loaded once at the start of the cycle — the loop
never adds to it.  `ok` tells, per destination and record, whether the
transport delivery succeeds; since `send_telegram_message` swallows its
exceptions, `ok` influences only the recorded outcome, never control flow.
Returns the attempts in order and the ids passed to `save_processed_id` in
order. -/
def process_new_messages (processed chats : List String)
    (ok : String → SmsMessage → Bool) :
    List SmsMessage → List Attempt × List String
  | [] => ([], [])
  | m :: rest =>
      let r := process_new_messages processed chats ok rest
      if processed.contains m.id then r
      else (chats.map (fun c => ⟨c, m, ok c m⟩) ++ r.1, m.id :: r.2)

/-- The whole dispatch phase of a cycle: the loop above, run over
`reversed(messages)`. -/
def check_sms_dispatch (messages : List SmsMessage) (processed chats : List String)
    (ok : String → SmsMessage → Bool) : List Attempt × List String :=
  process_new_messages processed chats ok messages.reverse

/-- The login-form data of `check_sms_job` (lines 460-464): fixed keys
`email` and `password`, plus `_token` when the login page had a hidden
`_token` input. -/
def build_login_data (username password : String) (tok : Option String) :
    List (String × String) :=
  [("email", username), ("password", password)] ++
    (match tok with | some v => [("_token", v)] | none => [])

/-- Modelled from the spec: the credential injection that claim C5
describes — "populate credential fields by case-insensitive name matching
against a small ranked list of known aliases (e.g., \"email\"/\"username\"/
\"user\" for the identifier field, \"password\"/\"pass\" for the secret); if
no match is found, inject default field names as a last resort".  The
matching is case-insensitive containment so that the spec's own scenario
(field `Email_Address`) matches the alias `email`.  Stated only to be
compared against `build_login_data`. -/
def spec_build_login_data (form_fields : List String) (username password : String)
    (tok : Option String) : List (String × String) :=
  let ident_field := (["email", "username", "user"].findSome? (fun a0 =>
      form_fields.find? (fun f => str_contains (py_lower f) a0))).getD "email"
  let secret_field := (["password", "pass"].findSome? (fun a0 =>
      form_fields.find? (fun f => str_contains (py_lower f) a0))).getD "password"
  [(ident_field, username), (secret_field, password)] ++
    (match tok with | some v => [("_token", v)] | none => [])

/-- The parsed pages a cycle sees: the login page's hidden `_token` value
(if any), the URL the login POST lands on, and the dashboard's
`meta[name=csrf-token]` (`none` when the tag is absent; `some c` when
present with content attribute `c`, itself optional). -/
structure LoginEnv where
  login_token_input : Option String
  post_login_url : String
  csrf_meta_content : Option (Option String)
deriving DecidableEq

/-- How far a cycle got. -/
inductive CycleStage
  | loginFailed
  | csrfMissing
  | noMessages
  | dispatched
deriving DecidableEq, Repr

/-- The observable outcome of one cycle. -/
structure CycleResult where
  login_data : List (String × String)
  stage : CycleStage
  attempts : List Attempt
  persisted : List String
deriving DecidableEq, Repr

/-- The cycle body of `check_sms_job` (lines 458-495): build the login data,
abort when the post-login URL still contains `login`, abort when the csrf
meta tag is missing, fetch, stop when no messages, else run the dispatch
loop. -/
def check_sms_job (username password : String) (env : LoginEnv)
    (groups : List SmsGroup) (now : String) (processed chats : List String)
    (ok : String → SmsMessage → Bool) : CycleResult :=
  let ld := build_login_data username password env.login_token_input
  if str_contains env.post_login_url "login" then ⟨ld, .loginFailed, [], []⟩
  else
    match env.csrf_meta_content with
    | none => ⟨ld, .csrfMissing, [], []⟩
    | some _ =>
        let messages := fetch_sms_from_api groups now
        if messages.isEmpty then ⟨ld, .noMessages, [], []⟩
        else
          let r := check_sms_dispatch messages processed chats ok
          ⟨ld, .dispatched, r.1, r.2⟩

/-! ## Startup (`main`) -/

/-- The environment-driven startup configuration.  Each item is `none` when
the variable is unset; Python truthiness also treats the empty string as
missing. -/
structure Config where
  bot_token : Option String
  admin_chat_ids : List String
  username : Option String
  password : Option String
deriving DecidableEq

/-- Python truthiness of an optional string. -/
def truthy : Option String → Bool
  | none => false
  | some s => !s.isEmpty

/-- Whether `main` reaches the poll loop. -/
inductive MainOutcome
  | halted
  | pollStarted
deriving DecidableEq, Repr

/-- The `main` function (lines 505-528): warn when `ADMIN_CHAT_IDS` is
empty (but do not exit), return before scheduling the poll job when
`YOUR_BOT_TOKEN` is unset, else start polling.  `USERNAME`/`PASSWORD` are
never checked here.  Returns (admin warning printed, outcome). -/
def main_run (cfg : Config) : Bool × MainOutcome :=
  let warn := cfg.admin_chat_ids.isEmpty
  if truthy cfg.bot_token = false then (warn, .halted)
  else (warn, .pollStarted)

/-! ## Concrete fixtures used by witnesses and counterexamples -/

/-- A one-group, one-number, one-card extraction input. -/
def demo_groups : List SmsGroup :=
  [⟨"Ivory Coast 2250", [⟨"2250712345678", [some "Your Facebook code is 482-193"]⟩]⟩]

/-- A record with a duplicated `(number, text)` pair's id, as extraction
would produce it. -/
def dup_msg : SmsMessage :=
  build_message "Ivory Coast 2250" "2250712345678" "Your Facebook code is 482-193" "t"

/-- A cycle environment whose dashboard page has no csrf meta tag. -/
def env_no_csrf : LoginEnv := ⟨some "tok", "https://www.ivasms.com/portal", none⟩

/-- A configuration with a transport token but no site credentials. -/
def cfg_no_creds : Config := ⟨some "123:ABC", ["1"], none, none⟩

/-- A message whose raw text contains the markup-special characters
`[`, `*` and `_`. -/
def c8_msg : SmsMessage :=
  ⟨"id0", "2025-01-01 00:00:00", "+15550100", "United States", "🇺🇸",
   "Google", "1234", "a[b*c_d"⟩

/-! ## Helper lemmas -/

/-- Closed form of the dispatch loop: attempts are the per-chat fan-out of
the records whose id is not in the loaded set, in traversal order, and the
saved ids are those records' ids. -/
theorem process_new_messages_eq (processed chats : List String)
    (ok : String → SmsMessage → Bool) (l : List SmsMessage) :
    process_new_messages processed chats ok l =
      ((l.filter (fun m => !(processed.contains m.id))).flatMap
          (fun m => chats.map (fun c => ⟨c, m, ok c m⟩)),
       (l.filter (fun m => !(processed.contains m.id))).map (fun m => m.id)) := by
  induction l with
  | nil => rfl
  | cons m rest ih =>
      simp only [process_new_messages, ih, List.filter_cons]
      cases hc : processed.contains m.id <;> simp

/-- Filtering commutes with reversal. -/
theorem filter_reverse_eq {α : Type} (p : α → Bool) (l : List α) :
    l.reverse.filter p = (l.filter p).reverse := by
  induction l with
  | nil => rfl
  | cons a l ih =>
      simp only [List.reverse_cons, List.filter_append, List.filter_cons, ih]
      cases p a <;> simp

/-- A non-backslash character passes through `md_unescape_chars`
unchanged. -/
theorem md_unescape_chars_cons (c : Char) (rest : List Char) (h : c ≠ '\\') :
    md_unescape_chars (c :: rest) = c :: md_unescape_chars rest := by
  cases rest with
  | nil => simp [md_unescape_chars]
  | cons c2 r2 => simp [md_unescape_chars, h]

/-- A backslash makes the next character literal. -/
theorem md_unescape_chars_slash (c : Char) (rest : List Char) :
    md_unescape_chars ('\\' :: c :: rest) = c :: md_unescape_chars rest := by
  simp [md_unescape_chars]

/-- Escaping and then interpreting the escapes is the identity: escaped
text renders literally. -/
theorem md_unescape_chars_esc (l : List Char) :
    md_unescape_chars (l.flatMap esc_char) = l := by
  induction l with
  | nil => rfl
  | cons c rest ih =>
      by_cases h : escape_chars.contains c
      · simp only [List.flatMap_cons, esc_char, h, if_pos]
        simpa [md_unescape_chars_slash] using ih
      · have hc : c ≠ '\\' := by
          intro he
          subst he
          simp [escape_chars] at h
        rw [List.flatMap_cons, show esc_char c = [c] from by simp only [esc_char, if_neg h],
          List.singleton_append, md_unescape_chars_cons c _ hc, ih]

/-- `md_unescape` undoes `escape_markdown`. -/
theorem md_unescape_escape_markdown (t : String) :
    md_unescape (escape_markdown t) = t := by
  show String.mk (md_unescape_chars (String.toList (String.mk (t.toList.flatMap esc_char)))) = t
  rw [show String.toList (String.mk (t.toList.flatMap esc_char)) = t.toList.flatMap esc_char from rfl]
  rw [md_unescape_chars_esc]
  rfl

/-- Counting attempts and saves in the dispatch loop: a destination `c`
receives, for an id `i` not in the loaded set, one attempt per occurrence of
`i` among the records and per occurrence of `c` among the destinations, and
`save_processed_id` is invoked once per occurrence of `i`. -/
theorem process_new_messages_counts (processed chats : List String)
    (ok : String → SmsMessage → Bool) (c i : String) (l : List SmsMessage) :
    ((process_new_messages processed chats ok l).1.countP
        (fun a => a.chat == c && a.msg.id == i) =
      (if i ∈ processed then 0
       else chats.countP (fun x => x == c) * l.countP (fun m => m.id == i))) ∧
    ((process_new_messages processed chats ok l).2.countP (fun x => x == i) =
      (if i ∈ processed then 0 else l.countP (fun m => m.id == i))) := by
  induction l with
  | nil => simp [process_new_messages]
  | cons m rest ih =>
      obtain ⟨ih1, ih2⟩ := ih
      simp only [process_new_messages]
      by_cases hmi : m.id = i
      · subst hmi
        cases hc : processed.contains m.id with
        | true =>
            have hm : m.id ∈ processed := by simpa using hc
            rw [if_pos hm] at ih1 ih2
            simp only [hm, if_pos]
            exact ⟨ih1, ih2⟩
        | false =>
            have hm : m.id ∉ processed := by simpa using hc
            simp [hm] at ih1 ih2
            simp only [List.countP_append, List.countP_map, List.countP_cons]
            constructor
            · simp [hm, Function.comp_def, ih1, Nat.mul_add, Nat.mul_one,
                Nat.add_comm]
            · simp [hm, ih2, Nat.add_comm]
      · have hbi : (m.id == i) = false := by
          simpa using hmi
        cases hc : processed.contains m.id with
        | true =>
            simp [List.countP_cons, hbi, ih1, ih2]
        | false =>
            simp only [List.countP_append, List.countP_map, List.countP_cons]
            constructor
            · simp [Function.comp_def, hbi, ih1]
            · simp [hbi, ih2]

/-- Counting is invariant under reversing the list. -/
theorem countP_reverse_eq {α : Type} (p : α → Bool) (l : List α) :
    l.reverse.countP p = l.countP p := by
  rw [List.countP_eq_length_filter, List.countP_eq_length_filter,
    filter_reverse_eq, List.length_reverse]

/-! ## Claims -/

/-- C1 counterexample: a cycle whose extracted list contains the same
`(number, text)` record twice (hence the same id), with that id not yet
persisted and a single destination, dispatches TWO messages to that
destination and invokes the persistence insert twice.  The dispatch loop of
`check_sms_job` tests each record against the id set loaded once at cycle
start and never updates it in-memory, so duplicates do not collapse before
the Identity Store check — contradicting the claim's "at most one outbound
message per destination ... persists that id exactly once". -/
theorem C1_counterexample :
    ((check_sms_dispatch [dup_msg, dup_msg] [] ["-100"]
        (fun _ _ => true)).1.countP
      (fun a => a.chat == "-100" && a.msg.id == dup_msg.id) = 2) ∧
    ((check_sms_dispatch [dup_msg, dup_msg] [] ["-100"]
        (fun _ _ => true)).2.countP (fun x => x == dup_msg.id) = 2) := by
  decide

/-- C1 (amended): duplicates do NOT collapse in-memory before the Identity
Store check.  For an id `i` absent from the loaded set, each destination
receives one message per occurrence of `i` among the extracted records (two
identical records yield two dispatches per destination) and
`save_processed_id` is invoked once per occurrence; for an id already in
the loaded set nothing is dispatched or saved.  Only the idempotence of the
persisted insert keeps the stored set itself duplicate-free. -/
theorem C1_amended_per_occurrence (messages : List SmsMessage)
    (processed chats : List String) (ok : String → SmsMessage → Bool)
    (c i : String) :
    ((check_sms_dispatch messages processed chats ok).1.countP
        (fun a => a.chat == c && a.msg.id == i) =
      (if i ∈ processed then 0
       else chats.countP (fun x => x == c) *
         messages.countP (fun m => m.id == i))) ∧
    ((check_sms_dispatch messages processed chats ok).2.countP
        (fun x => x == i) =
      (if i ∈ processed then 0 else messages.countP (fun m => m.id == i))) := by
  have h := process_new_messages_counts processed chats ok c i messages.reverse
  rw [check_sms_dispatch]
  rwa [countP_reverse_eq] at h

/-- C1 witness: the amended count law evaluated on the duplicate-record
cycle. -/
theorem C1_witness :
    ((check_sms_dispatch [dup_msg, dup_msg] [] ["-1"] (fun _ _ => true)).1.countP
        (fun a => a.chat == "-1" && a.msg.id == dup_msg.id) =
      (if dup_msg.id ∈ ([] : List String) then 0
       else (["-1"] : List String).countP (fun x => x == "-1") *
         [dup_msg, dup_msg].countP (fun m => m.id == dup_msg.id))) ∧
    ((check_sms_dispatch [dup_msg, dup_msg] [] ["-1"] (fun _ _ => true)).2.countP
        (fun x => x == dup_msg.id) =
      (if dup_msg.id ∈ ([] : List String) then 0
       else [dup_msg, dup_msg].countP (fun m => m.id == dup_msg.id))) :=
  C1_amended_per_occurrence [dup_msg, dup_msg] [] ["-1"] (fun _ _ => true)
    "-1" dup_msg.id

/-- C2: every record produced by the extractor carries
`id = sha1(number ++ "|" ++ text).hexdigest()`: the id is a deterministic
function of exactly the `(phone_number, message_text)` pair — the digest
mentions no other record field, classification result, timestamp or
backend, so equal pairs always yield equal ids. -/
theorem C2_id_deterministic_digest (groups : List SmsGroup) (now : String)
    (m : SmsMessage) (hm : m ∈ fetch_sms_from_api groups now) :
    m.id = unique_id m.number m.full_sms := by
  simp only [fetch_sms_from_api, List.mem_flatMap, List.mem_filterMap] at hm
  obtain ⟨g, _, nb, _, card, _, hc⟩ := hm
  cases card with
  | none => simp at hc
  | some raw =>
      simp only [Option.map_some', Option.some.injEq] at hc
      subst hc
      rfl

/-- C2 witness: the id law evaluated on a concrete extraction. -/
theorem C2_witness :
    (build_message "Ivory Coast 2250" "2250712345678"
        (py_strip "Your Facebook code is 482-193") "t").id =
      unique_id
        (build_message "Ivory Coast 2250" "2250712345678"
          (py_strip "Your Facebook code is 482-193") "t").number
        (build_message "Ivory Coast 2250" "2250712345678"
          (py_strip "Your Facebook code is 482-193") "t").full_sms :=
  C2_id_deterministic_digest demo_groups "t" _ (by decide)

/-- C3 counterexample: with the transport token set but both site
credentials missing, `main` does not halt — it proceeds to start the poll
loop.  `main` never checks `USERNAME`/`PASSWORD`, so a missing mandatory
credential is not fatal, contradicting the claim. -/
theorem C3_counterexample :
    (main_run cfg_no_creds).2 = MainOutcome.pollStarted ∧
    cfg_no_creds.username = none ∧ cfg_no_creds.password = none := by
  decide

/-- C3 (amended): the only fatal startup condition is a missing (or empty)
transport token: `main` halts before the poll loop exactly when
`YOUR_BOT_TOKEN` is falsy, and the outcome is independent of the site
credentials; an empty admin list merely warns. -/
theorem C3_amended_token_only (cfg : Config) :
    ((main_run cfg).2 = MainOutcome.halted ↔ truthy cfg.bot_token = false) ∧
    (∀ u p : Option String,
      (main_run ⟨cfg.bot_token, cfg.admin_chat_ids, u, p⟩).2 =
        (main_run cfg).2) := by
  constructor
  · cases h : truthy cfg.bot_token <;> simp [main_run, h]
  · intro u p
    cases h : truthy cfg.bot_token <;> simp [main_run, h]

/-- C3 witness: the amended halting law at a concrete configuration. -/
theorem C3_witness :
    (main_run ⟨some "T", ["9"], some "u", some "p"⟩).2 = MainOutcome.halted ↔
      truthy (some "T") = false :=
  (C3_amended_token_only ⟨some "T", ["9"], some "u", some "p"⟩).1

/-- C4 counterexample: with a successful login but no csrf meta tag on the
dashboard page, the cycle aborts ("CSRF token not found", then `return`)
without fetching or dispatching anything, even though extraction would have
produced a record — the code does not tolerate the absent token by treating
it as empty, contradicting the claim. -/
theorem C4_counterexample :
    (check_sms_job "u" "p" env_no_csrf demo_groups "t" [] ["-100"]
        (fun _ _ => true)).stage = CycleStage.csrfMissing ∧
    (check_sms_job "u" "p" env_no_csrf demo_groups "t" [] ["-100"]
        (fun _ _ => true)).attempts = [] ∧
    fetch_sms_from_api demo_groups "t" ≠ [] := by
  decide

/-- C4 (amended): when the post-login dashboard page has no
`meta[name=csrf-token]` tag, the cycle aborts before fetching: no messages
are fetched, no delivery attempted, nothing persisted.  (Only a meta tag
whose `content` attribute is missing is tolerated, as a `None` token.) -/
theorem C4_amended_abort_on_missing_csrf (username password : String)
    (env : LoginEnv) (groups : List SmsGroup) (now : String)
    (processed chats : List String) (ok : String → SmsMessage → Bool)
    (hlogin : str_contains env.post_login_url "login" = false)
    (hcsrf : env.csrf_meta_content = none) :
    check_sms_job username password env groups now processed chats ok =
      ⟨build_login_data username password env.login_token_input,
       CycleStage.csrfMissing, [], []⟩ := by
  simp [check_sms_job, hlogin, hcsrf]

/-- C4 witness: the amended abort law at a concrete environment. -/
theorem C4_witness :
    check_sms_job "u" "p" env_no_csrf [] "t" [] [] (fun _ _ => true) =
      ⟨build_login_data "u" "p" (some "tok"), CycleStage.csrfMissing, [], []⟩ :=
  C4_amended_abort_on_missing_csrf "u" "p" env_no_csrf [] "t" [] []
    (fun _ _ => true) (by decide) rfl

/-- C5 counterexample: for a login form whose identifier field is named
`Email_Address`, the spec's alias-matching injection populates that field,
but the code's login data — which never inspects the form's field names —
consists of the fixed keys `email`/`password`/`_token` only, so
`Email_Address` is not populated and the two constructions disagree. -/
theorem C5_counterexample :
    build_login_data "alice@example.com" "hunter2" (some "tok") ≠
      spec_build_login_data ["Email_Address"] "alice@example.com" "hunter2"
        (some "tok") ∧
    (build_login_data "alice@example.com" "hunter2" (some "tok")).lookup
        "Email_Address" = none := by
  decide

/-- C5 (amended): login-form submission performs no field-name matching at
all: the submitted keys are always the fixed `email` and `password` (plus
`_token` exactly when the login page had a hidden `_token` input), with the
credentials under those fixed keys; a form field named `Email_Address` is
never populated. -/
theorem C5_amended_fixed_keys (username password : String) (tok : Option String) :
    (build_login_data username password tok).map Prod.fst =
      ["email", "password"] ++
        (match tok with | some _ => ["_token"] | none => []) ∧
    (build_login_data username password tok).lookup "email" = some username ∧
    (build_login_data username password tok).lookup "password" = some password ∧
    (build_login_data username password tok).lookup "Email_Address" = none := by
  cases tok <;> simp [build_login_data, List.lookup]

/-- C5 witness: the amended fixed-keys law at concrete credentials. -/
theorem C5_witness :
    (build_login_data "a" "b" (some "t")).map Prod.fst =
      ["email", "password", "_token"] ∧
    (build_login_data "a" "b" (some "t")).lookup "email" = some "a" ∧
    (build_login_data "a" "b" (some "t")).lookup "password" = some "b" ∧
    (build_login_data "a" "b" (some "t")).lookup "Email_Address" = none := by
  simpa using C5_amended_fixed_keys "a" "b" (some "t")

/-- C6: code extraction prefers the strict `\d{3}-\d{3}` pattern and returns
its match whenever present; only when it is absent does the loose
word-bounded `\d{4,8}` pattern apply; when neither matches the result is the
sentinel `"N/A"` (the function is total, it never fails).  On
"Your code is 482-193" the strict pattern wins and yields "482-193". -/
theorem C6_code_extraction_order :
    (∀ t c, strict_search t = some c → extract_code t = c) ∧
    (∀ t, strict_search t = none →
      extract_code t = (loose_search t).getD "N/A") ∧
    extract_code "Your code is 482-193" = "482-193" := by
  refine ⟨?_, ?_, by decide⟩
  · intro t c h
    simp [extract_code, code_match, h]
  · intro t h
    simp [extract_code, code_match, h]

/-- C6 witness: the strict-pattern-first law on a text containing both a
strict and a loose match. -/
theorem C6_witness : extract_code "Order 111-222 or 3333" = "111-222" :=
  C6_code_extraction_order.1 "Order 111-222 or 3333" "111-222" (by decide)

/-- C7: a persistence read failure never propagates —
`load_processed_ids` returns the empty set when the Mongo backend is
selected and the read errors, and likewise when the file backend is
selected and the state file is absent or unreadable. -/
theorem C7_read_failure_empty_set (env : StoreEnv) :
    (env.mongo_available = true → env.mongo_find = Except.error () →
      load_processed_ids env = ∅) ∧
    (env.mongo_available = false →
      (env.state_file = none ∨ env.state_file = some (Except.error ())) →
      load_processed_ids env = ∅) := by
  constructor
  · intro h1 h2
    simp [load_processed_ids, h1, h2]
  · intro h1 h2
    rcases h2 with h2 | h2 <;> simp [load_processed_ids, h1, h2]

/-- C7 witness: the empty-set law on a failing Mongo read and on an absent
state file. -/
theorem C7_witness :
    load_processed_ids ⟨true, Except.error (), none⟩ = ∅ ∧
    load_processed_ids ⟨false, Except.ok [], none⟩ = ∅ :=
  ⟨(C7_read_failure_empty_set ⟨true, Except.error (), none⟩).1 rfl rfl,
   (C7_read_failure_empty_set ⟨false, Except.ok [], none⟩).2 rfl (Or.inl rfl)⟩

/-- C9: delivery failures are isolated.  Because `send_telegram_message`
catches its own exceptions, the per-destination transport outcomes have no
influence on control flow: the attempted (destination, record) sequence and
the sequence of ids persisted afterwards are identical under any two
outcome assignments — a failure at one destination neither prevents the
remaining destinations from being attempted nor the id from being
persisted. -/
theorem C9_failure_isolation (messages : List SmsMessage)
    (processed chats : List String) (ok okAlt : String → SmsMessage → Bool) :
    ((check_sms_dispatch messages processed chats ok).1.map
        (fun a => (a.chat, a.msg)) =
      (check_sms_dispatch messages processed chats okAlt).1.map
        (fun a => (a.chat, a.msg))) ∧
    (check_sms_dispatch messages processed chats ok).2 =
      (check_sms_dispatch messages processed chats okAlt).2 := by
  rw [check_sms_dispatch, check_sms_dispatch, process_new_messages_eq,
    process_new_messages_eq]
  constructor
  · simp [List.map_flatMap, List.map_map, Function.comp_def]
  · rfl

/-- C9 witness: outcome-invariance at a concrete cycle, with an
all-succeeding and an all-failing transport. -/
theorem C9_witness :
    ((check_sms_dispatch [dup_msg] [] ["-1", "-2"] (fun _ _ => true)).1.map
        (fun a => (a.chat, a.msg)) =
      (check_sms_dispatch [dup_msg] [] ["-1", "-2"] (fun _ _ => false)).1.map
        (fun a => (a.chat, a.msg))) ∧
    (check_sms_dispatch [dup_msg] [] ["-1", "-2"] (fun _ _ => true)).2 =
      (check_sms_dispatch [dup_msg] [] ["-1", "-2"] (fun _ _ => false)).2 :=
  C9_failure_isolation [dup_msg] [] ["-1", "-2"] (fun _ _ => true)
    (fun _ _ => false)

/-- C10: within a cycle the new records are dispatched in exactly the
reverse of extraction order (`for msg in reversed(messages)`): the attempt
list is the per-destination fan-out of the new records of
`messages` in reversed order, and their ids are saved in that same order. -/
theorem C10_dispatch_reverse_order (messages : List SmsMessage)
    (processed chats : List String) (ok : String → SmsMessage → Bool) :
    (check_sms_dispatch messages processed chats ok).1 =
      ((messages.filter (fun m => !(processed.contains m.id))).reverse).flatMap
        (fun m => chats.map (fun c => ⟨c, m, ok c m⟩)) ∧
    (check_sms_dispatch messages processed chats ok).2 =
      ((messages.filter (fun m => !(processed.contains m.id))).reverse).map
        (fun m => m.id) := by
  rw [check_sms_dispatch, process_new_messages_eq, filter_reverse_eq]
  exact ⟨rfl, rfl⟩

/-- C10 witness: the reversal law at a concrete two-record cycle. -/
theorem C10_witness :
    (check_sms_dispatch [dup_msg, c8_msg] [] ["-1"] (fun _ _ => true)).1 =
      (([dup_msg, c8_msg].filter
          (fun m => !(([] : List String).contains m.id))).reverse).flatMap
        (fun m => ["-1"].map (fun c => ⟨c, m, true⟩)) ∧
    (check_sms_dispatch [dup_msg, c8_msg] [] ["-1"] (fun _ _ => true)).2 =
      (([dup_msg, c8_msg].filter
          (fun m => !(([] : List String).contains m.id))).reverse).map
        (fun m => m.id) :=
  C10_dispatch_reverse_order [dup_msg, c8_msg] [] ["-1"] (fun _ _ => true)

/-- C8 counterexample: on a record whose raw text contains the
markup-special characters `[`, `*` and `_`, the actual formatter — which
substitutes the raw text verbatim inside the fenced block — differs from
the spec's formatter that escapes every user-controlled substring including
the raw text: the code does not escape the raw message body. -/
theorem C8_counterexample :
    format_full_message c8_msg ≠ spec_format_all_escaped c8_msg := by
  decide

/-- C8 (amended): the formatter escapes the number, code, service label,
country label and time via `escape_markdown` before substitution — so a
MarkdownV2 consumer renders any markup-special characters in those fields
literally (interpreting the escapes restores the original text) — while the
raw message text is substituted verbatim, unescaped, inside a fenced
preformatted block. -/
theorem C8_amended_escaped_fields (m : SmsMessage) :
    md_unescape (escape_markdown m.number) = m.number ∧
    md_unescape (escape_markdown m.code) = m.code ∧
    md_unescape (escape_markdown m.service) = m.service ∧
    md_unescape (escape_markdown m.country) = m.country ∧
    md_unescape (escape_markdown m.time) = m.time ∧
    format_full_message m =
      format_header m ++ ("```\n" ++ (m.full_sms ++ "\n```")) :=
  ⟨md_unescape_escape_markdown _, md_unescape_escape_markdown _,
   md_unescape_escape_markdown _, md_unescape_escape_markdown _,
   md_unescape_escape_markdown _, rfl⟩

/-- C8 witness: the escaped-fields law on the markup-special record. -/
theorem C8_witness :
    md_unescape (escape_markdown c8_msg.number) = c8_msg.number ∧
    md_unescape (escape_markdown c8_msg.code) = c8_msg.code ∧
    md_unescape (escape_markdown c8_msg.service) = c8_msg.service ∧
    md_unescape (escape_markdown c8_msg.country) = c8_msg.country ∧
    md_unescape (escape_markdown c8_msg.time) = c8_msg.time ∧
    format_full_message c8_msg =
      format_header c8_msg ++ ("```\n" ++ (c8_msg.full_sms ++ "\n```")) :=
  C8_amended_escaped_fields c8_msg
